import Mathlib

/-!
Verification of the `firebird` ambient TypeScript declaration file
(`types/firebird/index.d.ts`).  The file contains no executable logic:
it declares classes, interfaces, method signatures and properties.  We
embed the declared surface as explicit syntax-tree data below, transcribed
member by member from the source, and prove the claimed properties of that
surface.  Runtime behavior of the wrapped native library (which is not part
of this repository) is modelled separately from the spec where a claim
needs it, and such definitions say so in their doc comments.
-/

mutual

/-- A TypeScript type expression, as written in the declaration file.
`TSTypeList` is the syntactic list of types used by unions and by the
argument lists of function (callback) types. -/
inductive TSType where
  | str : TSType
  | num : TSType
  | boolT : TSType
  | voidT : TSType
  | errT : TSType
  | nullT : TSType
  | bufferT : TSType
  | dateT : TSType
  | functionT : TSType
  | litStr : String → TSType
  | litBool : Bool → TSType
  | named : String → TSType
  | thisT : TSType
  | typeVar : String → TSType
  | union : TSTypeList → TSType
  | arr : TSType → TSType
  | indexRec : TSType → TSType
  | fn : TSTypeList → TSType → TSType
  deriving DecidableEq, Repr

/-- A syntactic list of TypeScript type expressions. -/
inductive TSTypeList where
  | nil : TSTypeList
  | cons : TSType → TSTypeList → TSTypeList
  deriving DecidableEq, Repr

end

/-- Converts an ordinary Lean list of type expressions into the syntactic
`TSTypeList` form. -/
def TSTypeList.ofList : List TSType → TSTypeList
  | [] => .nil
  | t :: ts => .cons t (TSTypeList.ofList ts)

/-- Converts a syntactic `TSTypeList` back to an ordinary Lean list. -/
def TSTypeList.toList : TSTypeList → List TSType
  | .nil => []
  | .cons t ts => t :: ts.toList

/-- A declared parameter of a method signature. -/
structure Param where
  pname : String
  ty : TSType
  optional : Bool := false
  rest : Bool := false
  deriving DecidableEq, Repr

/-- One overload signature of a declared method. -/
structure Sig where
  typeParams : List String := []
  params : List Param
  ret : TSType
  deriving DecidableEq, Repr

/-- A member of a declared class or interface.  Properties record both the
declared mutability (`readonlyMod`: whether the `readonly` modifier appears
in the declaration) and what the accompanying doc comment says
(`docReadonly`: whether the doc comment calls the property readonly). -/
inductive Member where
  | ctor : List Sig → Member
  | method : String → List Sig → Member
  | property : (name : String) → (ty : TSType) → (readonlyMod : Bool) →
      (docReadonly : Bool) → Member
  deriving DecidableEq, Repr

/-- A declared class or interface. -/
structure Decl where
  dname : String
  isClass : Bool
  extendsName : Option String := none
  members : List Member
  deriving DecidableEq, Repr

/-- The whole declared module surface. -/
structure TSModule where
  functions : List (String × Sig)
  typeAliases : List (String × TSType)
  decls : List Decl
  deriving DecidableEq, Repr

namespace firebird

/-- Shorthand for building a syntactic type list from a Lean list. -/
def tl (ts : List TSType) : TSTypeList := TSTypeList.ofList ts

/-- The type `Error | null` used as the first argument of every
error-first callback in the file. -/
def errOrNull : TSType := .union (tl [.errT, .nullT])

/-- The callback type `(err: Error | null) => void`. -/
def errCb : TSType := .fn (tl [errOrNull]) .voidT

/-- A required parameter. -/
def pp (n : String) (t : TSType) : Param := { pname := n, ty := t }

/-- An optional parameter (marked `?` in the source). -/
def pOpt (n : String) (t : TSType) : Param :=
  { pname := n, ty := t, optional := true }

/-- A rest parameter (marked `...` in the source). -/
def pRest (n : String) (t : TSType) : Param :=
  { pname := n, ty := t, rest := true }

/-- A non-generic signature. -/
def sg (ps : List Param) (r : TSType) : Sig := { params := ps, ret := r }

/-- A generic signature with type parameters. -/
def sgT (tps : List String) (ps : List Param) (r : TSType) : Sig :=
  { typeParams := tps, params := ps, ret := r }

/-- The type alias `DataType = Date | string | number | FBBlob` from the
source (the commented-out `Integer` is not part of the declared union). -/
def DataType : TSType := .union (tl [.dateT, .str, .num, .named "FBBlob"])

/-- The declared `Connection` class, transcribed member by member from
`types/firebird/index.d.ts`. -/
def Connection : Decl :=
  { dname := "Connection"
    isClass := true
    members :=
      [ .ctor [sg [] (.named "Connection")]
      , .method "connectSync"
          [sg [pp "db" .str, pp "user" .str, pp "pass" .str, pp "role" .str]
            .voidT]
      , .method "connect"
          [sg [pp "db" .str, pp "user" .str, pp "pass" .str, pp "role" .str,
               pp "callback" errCb] .voidT]
      , .property "connected" .boolT false true
      , .method "querySync" [sg [pp "sql" .str] (.named "FBResult")]
      , .method "query"
          [sg [pp "sql" .str,
               pp "callback" (.fn (tl [errOrNull, .named "FBResult"]) .voidT)]
            .voidT]
      , .method "addFBevent" [sg [pp "name" .str] .voidT]
      , .method "deleteFBevent" [sg [pp "name" .str] .voidT]
      , .method "commitSync" [sg [] .voidT]
      , .method "commit" [sg [pp "callback" errCb] .voidT]
      , .method "rollbackSync" [sg [] .voidT]
      , .method "rollback" [sg [pp "callback" errCb] .voidT]
      , .method "startSync" [sg [] .voidT]
      , .method "start" [sg [pp "callback" errCb] .voidT]
      , .method "prepareSync" [sg [pp "sql" .str] (.named "FBStatement")]
      , .property "inTransaction" .boolT false true
      , .method "newBlobSync" [sg [] (.named "FBBlob")]
      , .method "startNewTransactionSync" [sg [] (.named "Transaction")]
      , .method "startNewTransaction"
          [sg [pp "callback"
                (.fn (tl [errOrNull, .named "Transaction"]) .voidT)] .voidT]
      ] }

/-- The declared `FBResult` class, transcribed from the source.  The four
overloads of `fetchSync` and of `fetch` are kept in source order. -/
def FBResult : Decl :=
  { dname := "FBResult"
    isClass := true
    members :=
      [ .method "fetchSync"
          [ sg [pp "rowCount" (.union (tl [.num, .litStr "all"])),
                pp "asObject" .boolT]
              (.union (tl [.arr (.arr (.named "DataType")),
                           .arr (.indexRec (.named "DataType"))]))
          , sg [pp "rowCount" (.union (tl [.num, .litStr "all"])),
                pp "asObject" (.litBool false)]
              (.arr (.arr (.named "DataType")))
          , sg [pp "rowCount" (.union (tl [.num, .litStr "all"])),
                pp "asObject" (.litBool true)]
              (.arr (.indexRec (.named "DataType")))
          , sgT ["T"]
              [pp "rowCount" (.union (tl [.num, .litStr "all"])),
               pp "asObject" (.litBool true)]
              (.arr (.typeVar "T")) ]
      , .method "fetch"
          [ sg [pp "rowCount" (.union (tl [.num, .litStr "all"])),
                pp "asObject" .boolT,
                pp "rowCallback"
                  (.fn (tl [.union (tl [.arr (.named "DataType"),
                                        .indexRec (.named "DataType")])])
                    .voidT),
                pp "eofCallback" (.fn (tl [errOrNull, .boolT]) .voidT)]
              .voidT
          , sg [pp "rowCount" (.union (tl [.num, .litStr "all"])),
                pp "asObject" (.litBool false),
                pp "rowCallback" (.fn (tl [.arr (.named "DataType")]) .voidT),
                pp "eofCallback" (.fn (tl [errOrNull, .boolT]) .voidT)]
              .voidT
          , sg [pp "rowCount" (.union (tl [.num, .litStr "all"])),
                pp "asObject" (.litBool true),
                pp "rowCallback"
                  (.fn (tl [.indexRec (.named "DataType")]) .voidT),
                pp "eofCallback" (.fn (tl [errOrNull, .boolT]) .voidT)]
              .voidT
          , sgT ["T"]
              [pp "rowCount" (.union (tl [.num, .litStr "all"])),
               pp "asObject" (.litBool true),
               pp "rowCallback" (.fn (tl [.typeVar "T"]) .voidT),
               pp "eofCallback" (.fn (tl [errOrNull, .boolT]) .voidT)]
              .voidT ]
      ] }

/-- The declared `Transaction` interface, transcribed from the source.
Note the source declares `querySync(sql: string): void` here. -/
def Transaction : Decl :=
  { dname := "Transaction"
    isClass := false
    members :=
      [ .method "querySync" [sg [pp "sql" .str] .voidT]
      , .method "query"
          [sg [pp "sql" .str,
               pp "callback" (.fn (tl [errOrNull, .named "FBResult"]) .voidT)]
            .voidT]
      , .method "commitSync" [sg [] .voidT]
      , .method "commit" [sg [pp "callback" errCb] .voidT]
      , .method "rollbackSync" [sg [] .voidT]
      , .method "rollback" [sg [pp "callback" errCb] .voidT]
      , .method "startSync" [sg [] .voidT]
      , .method "start" [sg [pp "callback" errCb] .voidT]
      , .method "prepareSync" [sg [pp "sql" .str] (.named "FBStatement")]
      , .property "inTransaction" .boolT false true
      ] }

/-- The declared `FBStatement` class, which extends `FBResult`. -/
def FBStatement : Decl :=
  { dname := "FBStatement"
    isClass := true
    extendsName := some "FBResult"
    members :=
      [ .method "execSync"
          [sg [pRest "params" (.arr (.named "DataType"))] .voidT]
      , .method "execInTransSync"
          [sg [pp "transaction" (.named "Transaction"),
               pRest "params" (.arr (.named "DataType"))] .voidT]
      , .method "exec"
          [sg [pRest "params" (.arr (.named "DataType"))] .voidT]
      , .method "execInTrans"
          [sg [pp "transaction" (.named "Transaction"),
               pRest "params" (.arr (.named "DataType"))] .voidT]
      ] }

/-- The callback type `(err, buffer, len) => void` used by the BLOB read
operations. -/
def blobReadCb : TSType := .fn (tl [errOrNull, .bufferT, .num]) .voidT

/-- The declared `FBBlob` interface, transcribed from the source. -/
def FBBlob : Decl :=
  { dname := "FBBlob"
    isClass := false
    members :=
      [ .method "_openSync" [sg [] .voidT]
      , .method "_closeSync" [sg [] .voidT]
      , .method "_readSync" [sg [pp "buffer" .bufferT] .num]
      , .method "_read"
          [sg [pp "buffer" .bufferT, pp "callback" blobReadCb] .voidT]
      , .method "_readAll"
          [ sg [pOpt "initialSize" .num, pOpt "chunkSize" .num,
                pOpt "callback" blobReadCb] .voidT
          , sg [pp "initialSize" .num, pp "callback" blobReadCb] .voidT
          , sg [pp "callback" blobReadCb] .voidT ]
      , .method "_writeSync"
          [sg [pp "buffer" .bufferT, pOpt "len" .num] .num]
      , .method "_write"
          [sg [pp "buffer" .bufferT, pOpt "len" .num, pOpt "callback" errCb]
            .voidT]
      ] }

/-- The declared `Stream` class, which extends the runtime's generic
`stream.Stream` type. -/
def Stream : Decl :=
  { dname := "Stream"
    isClass := true
    extendsName := some "stream.Stream"
    members :=
      [ .ctor [sg [pp "blob" (.named "FBBlob")] (.named "Stream")]
      , .property "readable" .boolT false false
      , .method "pause" [sg [] .thisT]
      , .method "resume" [sg [] .thisT]
      , .property "writable" .boolT false false
      , .method "write"
          [ sg [pp "buffer" (.union (tl [.bufferT, .str])),
                pOpt "cb" .functionT] .boolT
          , sg [pp "str" .str, pOpt "encoding" .str, pOpt "cb" .functionT]
              .boolT ]
      , .method "end"
          [ sg [] .thisT
          , sg [pp "buffer" .bufferT, pOpt "cb" .functionT] .thisT
          , sg [pp "str" .str, pOpt "cb" .functionT] .thisT
          , sg [pp "str" .str, pOpt "encoding" .str, pOpt "cb" .functionT]
              .thisT ]
      , .method "destroy" [sg [pOpt "error" .errT] .thisT]
      , .method "check_destroyed" [sg [] .voidT]
      ] }

/-- The whole declared `firebird` module surface. -/
def firebirdModule : TSModule :=
  { functions := [("createConnection", sg [] (.named "Connection"))]
    typeAliases := [("DataType", DataType)]
    decls := [Connection, FBResult, Transaction, FBStatement, FBBlob, Stream] }

end firebird

/-- The names of the methods a declaration declares, in source order. -/
def Decl.methodNames (d : Decl) : List String :=
  d.members.filterMap fun m => match m with
    | .method n _ => some n
    | _ => none

/-- Whether the declaration declares a method of the given name. -/
def Decl.hasMethod (d : Decl) (n : String) : Bool :=
  d.members.any fun m => match m with
    | .method mn _ => mn = n
    | _ => false

/-- All declared overload signatures of the given method name, in source
order. -/
def Decl.methodSigs (d : Decl) (n : String) : List Sig :=
  d.members.foldr (fun m acc => match m with
    | .method mn sigs => if mn = n then sigs ++ acc else acc
    | _ => acc) []

/-- The declared constructor signatures of the declaration. -/
def Decl.ctorSigs (d : Decl) : List Sig :=
  d.members.foldr (fun m acc => match m with
    | .ctor sigs => sigs ++ acc
    | _ => acc) []

/-- Looks up a declared property: returns its declared type, whether the
declaration carries the `readonly` modifier, and whether its doc comment
calls it readonly. -/
def Decl.findProp (d : Decl) (n : String) : Option (TSType × Bool × Bool) :=
  d.members.findSome? fun m => match m with
    | .property pn ty ro docRo => if pn = n then some (ty, ro, docRo) else none
    | _ => none

/-- Looks up a declared class or interface of the module by name. -/
def TSModule.findDecl (m : TSModule) (n : String) : Option Decl :=
  m.decls.find? (fun d => d.dname = n)

/-- Whether the named declaration, or a base class it (transitively)
extends inside the module, declares the given method.  `fuel` bounds the
length of the extends chain that is followed. -/
def TSModule.resolvesMethod (m : TSModule) : Nat → String → String → Bool
  | 0, _, _ => false
  | fuel + 1, declName, methodName =>
    match m.findDecl declName with
    | none => false
    | some d =>
      d.hasMethod methodName ||
      (match d.extendsName with
       | some parent => m.resolvesMethod fuel parent methodName
       | none => false)

mutual

/-- Whether a type expression syntactically mentions the named type. -/
def TSType.mentions : TSType → String → Bool
  | .named s, n => s = n
  | .union ts, n => ts.mentions n
  | .arr t, n => t.mentions n
  | .indexRec t, n => t.mentions n
  | .fn ts t, n => ts.mentions n || t.mentions n
  | _, _ => false

/-- Whether some type in a syntactic type list mentions the named type. -/
def TSTypeList.mentions : TSTypeList → String → Bool
  | .nil, _ => false
  | .cons t ts, n => t.mentions n || ts.mentions n

end

/-- Whether a signature delivers a value of the named type to its caller:
either its return type mentions it, or one of its parameters is a callback
function whose arguments mention it. -/
def Sig.produces (s : Sig) (n : String) : Bool :=
  s.ret.mentions n ||
  s.params.any fun q => match q.ty with
    | .fn args _ => args.mentions n
    | _ => false

/-- All places in the module from which a caller can obtain a value of the
named type: pairs of (declaration or module, member) whose signature
produces it. -/
def TSModule.producersOf (m : TSModule) (n : String) : List (String × String) :=
  (m.functions.filterMap fun fs =>
    if fs.2.produces n then some ("module", fs.1) else none) ++
  (m.decls.map fun d =>
    d.members.filterMap fun mem =>
      match mem with
      | .ctor sigs =>
          if sigs.any (·.produces n) then some (d.dname, "constructor")
          else none
      | .method mn sigs =>
          if sigs.any (·.produces n) then some (d.dname, mn) else none
      | .property pn ty _ _ =>
          if ty.mentions n then some (d.dname, pn) else none).flatten

namespace firebird

/-- Modelled from the spec: the runtime default-transaction state of a
`Connection`.  The executable connection logic is not part of this
repository (only its declarations are); the spec and the `commitSync` doc
comment describe the implicit transaction a connection maintains. -/
structure ConnRuntime where
  inTransaction : Bool
  deriving DecidableEq, Repr

/-- Modelled from the spec: the operations a connection performs against
its default transaction. -/
inductive ConnOp where
  | queryOp : ConnOp
  | commitOp : ConnOp
  | rollbackOp : ConnOp
  | startOp : ConnOp
  deriving DecidableEq, Repr

/-- Modelled from the spec: the transaction is automatically started before
any query if the connection does not already have an active transaction. -/
def ensureTransaction (c : ConnRuntime) : ConnRuntime :=
  if c.inTransaction then c else { inTransaction := true }

/-- Modelled from the spec: how each connection operation changes the
default-transaction state.  A query first auto-starts the transaction if
none is active; commit and rollback end it; start begins it. -/
def stepConn (c : ConnRuntime) : ConnOp → ConnRuntime
  | .queryOp => ensureTransaction c
  | .commitOp => { inTransaction := false }
  | .rollbackOp => { inTransaction := false }
  | .startOp => { inTransaction := true }

/-- Runs a sequence of connection operations and collects, for each query
in the sequence, the transaction state in which that query executes (the
state after the auto-start that precedes it). -/
def queryStates : ConnRuntime → List ConnOp → List ConnRuntime
  | _, [] => []
  | c, op :: ops =>
    let c' := stepConn c op
    (if op = .queryOp then [c'] else []) ++ queryStates c' ops

/-- Modelled from the spec: the runtime state of an explicit `Transaction`
object.  The executable transaction logic is not part of this repository;
the `Transaction` doc comments describe objects that auto-start before a
query and may be reused (re-started) after commit or rollback. -/
structure TxnRuntime where
  inTransaction : Bool
  deriving DecidableEq, Repr

/-- Modelled from the spec: how each operation of an explicit `Transaction`
object changes its state. -/
def stepTxn (t : TxnRuntime) : ConnOp → TxnRuntime
  | .queryOp => if t.inTransaction then t else { inTransaction := true }
  | .commitOp => { inTransaction := false }
  | .rollbackOp => { inTransaction := false }
  | .startOp => { inTransaction := true }

end firebird

namespace firebird

/-- Whether a signature has the asObject parameter declared at the given
literal boolean type. -/
def asObjectLit (s : Sig) (b : Bool) : Bool :=
  s.params.any fun q => q.pname = "asObject" && q.ty = .litBool b

/-- Whether a declared type is an object-shaped row type: the keyed record
type, or a type variable (constrained to an object type in the source). -/
def isObjectRow : TSType → Bool
  | .indexRec _ => true
  | .typeVar _ => true
  | _ => false

/-- Whether a declared return type is an array of object-shaped rows. -/
def retIsObjectRows : TSType → Bool
  | .arr t => isObjectRow t
  | _ => false

/-- Whether a type is an error-first callback: a function type whose first
argument is `Error | null`. -/
def errorFirstCb : TSType → Bool
  | .fn (.cons a _) _ => a = errOrNull
  | _ => false

/-- Whether a signature has a parameter of the given name whose type is a
void-returning callback whose single argument satisfies the test. -/
def hasCbParam (s : Sig) (n : String) (test : TSType → Bool) : Bool :=
  s.params.any fun q =>
    q.pname = n &&
    (match q.ty with
     | .fn (.cons t .nil) .voidT => test t
     | _ => false)

/-- Method names under which a session-closing operation could plausibly be
declared on `Connection`. -/
def closeMethodNames : List String :=
  ["close", "closeSync", "disconnect", "disconnectSync",
   "detach", "detachSync", "end", "endSync", "dispose", "destroy"]

/-- Claim C2 as stated: `Connection` declares at least one method for each
of the five capabilities, including one that closes the database session. -/
abbrev connectionFiveCapabilities : Prop :=
  Connection.hasMethod "connectSync" = true ∧
  closeMethodNames.any Connection.hasMethod = true ∧
  Connection.hasMethod "querySync" = true ∧
  Connection.hasMethod "query" = true ∧
  Connection.hasMethod "startSync" = true ∧
  Connection.hasMethod "commitSync" = true ∧
  Connection.hasMethod "rollbackSync" = true ∧
  Connection.hasMethod "addFBevent" = true ∧
  Connection.hasMethod "deleteFBevent" = true

end firebird

namespace firebird

/-- C1: every query on a connection executes inside an active default
transaction: along any sequence of connection operations, the state in
which each query runs (after the auto-start that precedes it when no
transaction is active) has `inTransaction = true`; the flag is the
declared `inTransaction` property of `Connection`. -/
theorem C1_query_always_in_transaction
    (c : ConnRuntime) (ops : List ConnOp) (s : ConnRuntime)
    (h : s ∈ queryStates c ops) :
    s.inTransaction = true ∧ (Connection.findProp "inTransaction").isSome = true := by
  refine ⟨?_, by decide⟩
  induction ops generalizing c with
  | nil => simp [queryStates] at h
  | cons op ops ih =>
    simp only [queryStates, List.mem_append] at h
    rcases h with h | h
    · rcases op with _ | _ | _ | _ <;> simp_all [stepConn, ensureTransaction]
      split at h <;> simp_all
    · exact ih _ h

/-- Witness for C1 at a concrete trace: starting with no active
transaction and running one query, the recorded query-execution state has
an active transaction. -/
theorem C1_query_always_in_transaction_witness :
    (⟨true⟩ : ConnRuntime) ∈ queryStates ⟨false⟩ [ConnOp.queryOp] ∧
    ((⟨true⟩ : ConnRuntime).inTransaction = true ∧
      (Connection.findProp "inTransaction").isSome = true) :=
  ⟨by decide,
   C1_query_always_in_transaction ⟨false⟩ [ConnOp.queryOp] ⟨true⟩ (by decide)⟩

/-- C2 counterexample: the claim as stated is false, because `Connection`
declares no method that closes the database session (none of the plausible
close/disconnect method names is declared). -/
theorem C2_counterexample_no_close_method : ¬ connectionFiveCapabilities := by
  decide

/-- C2 amended: `Connection` declares methods to open a session
(connectSync, connect), run queries synchronously and asynchronously
(querySync, query), manage the default transaction (startSync, start,
commitSync, commit, rollbackSync, rollback), and register and unsubscribe
database events (addFBevent, deleteFBevent) — but it declares no method to
close the session. -/
theorem C2_connection_capabilities :
    Connection.hasMethod "connectSync" = true ∧
    Connection.hasMethod "connect" = true ∧
    Connection.hasMethod "querySync" = true ∧
    Connection.hasMethod "query" = true ∧
    Connection.hasMethod "startSync" = true ∧
    Connection.hasMethod "start" = true ∧
    Connection.hasMethod "commitSync" = true ∧
    Connection.hasMethod "commit" = true ∧
    Connection.hasMethod "rollbackSync" = true ∧
    Connection.hasMethod "rollback" = true ∧
    Connection.hasMethod "addFBevent" = true ∧
    Connection.hasMethod "deleteFBevent" = true ∧
    closeMethodNames.any Connection.hasMethod = false := by
  decide

/-- C3: in the declared `FBResult` fetch interface, every overload with
`asObject = false` yields rows as arrays of field values and every overload
with `asObject = true` yields object-shaped rows; both literal variants are
declared, and the asynchronous `fetch` returns void and reports rows via a
per-row callback plus an error-first eof callback. -/
theorem C3_fetch_row_forms :
    (∀ s ∈ FBResult.methodSigs "fetchSync", asObjectLit s false = true →
      s.ret = .arr (.arr (.named "DataType"))) ∧
    (∀ s ∈ FBResult.methodSigs "fetchSync", asObjectLit s true = true →
      retIsObjectRows s.ret = true) ∧
    (∃ s ∈ FBResult.methodSigs "fetchSync", asObjectLit s false = true) ∧
    (∃ s ∈ FBResult.methodSigs "fetchSync", asObjectLit s true = true) ∧
    (∀ s ∈ FBResult.methodSigs "fetch", s.ret = .voidT) ∧
    (∀ s ∈ FBResult.methodSigs "fetch", asObjectLit s false = true →
      hasCbParam s "rowCallback" (fun t => t = .arr (.named "DataType")) = true) ∧
    (∀ s ∈ FBResult.methodSigs "fetch", asObjectLit s true = true →
      hasCbParam s "rowCallback" isObjectRow = true) ∧
    (∀ s ∈ FBResult.methodSigs "fetch",
      s.params.any (fun q => q.pname = "eofCallback" &&
        q.ty = .fn (tl [errOrNull, .boolT]) .voidT) = true) ∧
    (∃ s ∈ FBResult.methodSigs "fetch", asObjectLit s false = true) ∧
    (∃ s ∈ FBResult.methodSigs "fetch", asObjectLit s true = true) := by
  decide

/-- C4: `FBStatement` extends `FBResult`, so both fetch operations resolve
on it through the extends chain, and it declares parameterized execution in
the default connection transaction (execSync, exec) and in an explicitly
given `Transaction` (execInTransSync, execInTrans). -/
theorem C4_statement_extends_result :
    FBStatement.extendsName = some "FBResult" ∧
    firebirdModule.resolvesMethod 2 "FBStatement" "fetchSync" = true ∧
    firebirdModule.resolvesMethod 2 "FBStatement" "fetch" = true ∧
    FBStatement.methodSigs "execSync" =
      [sg [pRest "params" (.arr (.named "DataType"))] .voidT] ∧
    FBStatement.methodSigs "exec" =
      [sg [pRest "params" (.arr (.named "DataType"))] .voidT] ∧
    FBStatement.methodSigs "execInTransSync" =
      [sg [pp "transaction" (.named "Transaction"),
           pRest "params" (.arr (.named "DataType"))] .voidT] ∧
    FBStatement.methodSigs "execInTrans" =
      [sg [pp "transaction" (.named "Transaction"),
           pRest "params" (.arr (.named "DataType"))] .voidT] := by
  decide

/-- C5: within the declared module, `Transaction` values are obtainable
only from `Connection.startNewTransactionSync` and
`Connection.startNewTransaction` (it is an interface with no constructor);
it declares query, commit, rollback, start and prepareSync operations and
an `inTransaction` flag; and in the modelled runtime a transaction object
can be re-started after commit or rollback. -/
theorem C5_transaction_interface :
    firebirdModule.producersOf "Transaction" =
      [("Connection", "startNewTransactionSync"),
       ("Connection", "startNewTransaction")] ∧
    Transaction.isClass = false ∧
    Transaction.ctorSigs = [] ∧
    Transaction.hasMethod "querySync" = true ∧
    Transaction.hasMethod "query" = true ∧
    Transaction.hasMethod "commitSync" = true ∧
    Transaction.hasMethod "commit" = true ∧
    Transaction.hasMethod "rollbackSync" = true ∧
    Transaction.hasMethod "rollback" = true ∧
    Transaction.hasMethod "startSync" = true ∧
    Transaction.hasMethod "start" = true ∧
    Transaction.hasMethod "prepareSync" = true ∧
    (Transaction.findProp "inTransaction").isSome = true ∧
    (∀ t : TxnRuntime,
      (stepTxn t .commitOp).inTransaction = false ∧
      (stepTxn (stepTxn t .commitOp) .startOp).inTransaction = true ∧
      (stepTxn t .rollbackOp).inTransaction = false ∧
      (stepTxn (stepTxn t .rollbackOp) .startOp).inTransaction = true) := by
  refine ⟨by decide, by decide, by decide, by decide, by decide, by decide,
    by decide, by decide, by decide, by decide, by decide, by decide,
    by decide, ?_⟩
  intro t
  exact ⟨rfl, rfl, rfl, rfl⟩

/-- C6: `FBBlob` declares synchronous segment read and write returning the
byte count (`_readSync : Buffer → number`,
`_writeSync : Buffer × optional len → number`), and asynchronous
counterparts `_read`, `_readAll`, `_write` that return void and carry an
error-first callback parameter in every overload. -/
theorem C6_blob_segment_io :
    FBBlob.methodSigs "_readSync" = [sg [pp "buffer" .bufferT] .num] ∧
    FBBlob.methodSigs "_writeSync" =
      [sg [pp "buffer" .bufferT, pOpt "len" .num] .num] ∧
    (∀ s ∈ FBBlob.methodSigs "_read",
      s.ret = .voidT ∧ s.params.any (fun q => errorFirstCb q.ty) = true) ∧
    (∀ s ∈ FBBlob.methodSigs "_readAll",
      s.ret = .voidT ∧ s.params.any (fun q => errorFirstCb q.ty) = true) ∧
    (∀ s ∈ FBBlob.methodSigs "_write",
      s.ret = .voidT ∧ s.params.any (fun q => errorFirstCb q.ty) = true) ∧
    FBBlob.methodSigs "_read" ≠ [] ∧
    FBBlob.methodSigs "_readAll" ≠ [] ∧
    FBBlob.methodSigs "_write" ≠ [] := by
  decide

/-- C7: the `Stream` class adapts a BLOB handle to a generic byte stream:
its only constructor takes exactly one `FBBlob`, it extends the runtime
`stream.Stream` type, and it declares the readable side (readable, pause,
resume) and the writable side (writable, write, end, destroy). -/
theorem C7_stream_adapter :
    Stream.ctorSigs = [sg [pp "blob" (.named "FBBlob")] (.named "Stream")] ∧
    Stream.isClass = true ∧
    Stream.extendsName = some "stream.Stream" ∧
    Stream.findProp "readable" = some (.boolT, false, false) ∧
    Stream.hasMethod "pause" = true ∧
    Stream.hasMethod "resume" = true ∧
    Stream.findProp "writable" = some (.boolT, false, false) ∧
    Stream.hasMethod "write" = true ∧
    Stream.hasMethod "end" = true ∧
    Stream.hasMethod "destroy" = true := by
  decide

/-- C8: the declared module surface consists exactly of the function
`createConnection`, the alias `DataType` and the six declarations, and
each advertised API family has at least one declared type or method:
connecting, running queries, managing transactions, preparing statements
and streaming BLOB data. -/
theorem C8_module_surface :
    firebirdModule.decls.map Decl.dname =
      ["Connection", "FBResult", "Transaction", "FBStatement", "FBBlob",
       "Stream"] ∧
    firebirdModule.functions =
      [("createConnection", sg [] (.named "Connection"))] ∧
    firebirdModule.typeAliases.map Prod.fst = ["DataType"] ∧
    (firebirdModule.findDecl "Connection").isSome = true ∧
    Connection.hasMethod "querySync" = true ∧
    Connection.hasMethod "query" = true ∧
    Connection.hasMethod "startSync" = true ∧
    Connection.hasMethod "commitSync" = true ∧
    Connection.hasMethod "rollbackSync" = true ∧
    (firebirdModule.findDecl "Transaction").isSome = true ∧
    Connection.hasMethod "prepareSync" = true ∧
    (firebirdModule.findDecl "FBStatement").isSome = true ∧
    (firebirdModule.findDecl "FBBlob").isSome = true ∧
    (firebirdModule.findDecl "Stream").isSome = true := by
  decide

/-- C9: `Transaction.querySync` is declared to return void while
`Connection.querySync` is declared to return `FBResult`, so the declared
transactional interface gives a caller no result set from the return value
of a synchronous query. -/
theorem C9_transaction_querySync_returns_void :
    Transaction.methodSigs "querySync" = [sg [pp "sql" .str] .voidT] ∧
    Connection.methodSigs "querySync" =
      [sg [pp "sql" .str] (.named "FBResult")] ∧
    (.voidT : TSType) ≠ .named "FBResult" := by
  decide

/-- C10: the properties `Connection.connected` and
`Connection.inTransaction` are documented as readonly (third component) but
declared without the readonly modifier (second component), so the declared
interface permits external assignment to both. -/
theorem C10_doc_readonly_but_mutable :
    Connection.findProp "connected" = some (.boolT, false, true) ∧
    Connection.findProp "inTransaction" = some (.boolT, false, true) := by
  decide

end firebird
